import Mathlib

/-!
Verification development for the go-shockbliss-backend repository.

The file embeds, shallowly, the parts of the repository that the spec's
claims talk about:

* `internal/config/config.go` — environment loading, parsing helpers and
  the `validate` invariants (fully present in the source tree);
* the route table registered by `setupRoutes` in `main.go`;
* the exported surface of `pkg/logger/logger.go`;
* the order/payment coordinator described in spec §4.2–§4.4 (its Go source
  is not in the tree; those definitions are modelled from the spec and say
  so in their doc comments).

Go machine integers are modelled as `Int`/`Nat` with the overflow checks
the Go standard library performs written out explicitly; `time.Duration`
is an `Int` count of nanoseconds.
-/

set_option linter.dupNamespace false

namespace Shockbliss

/-! ## Embedding of `internal/config/config.go` -/

namespace Config

/-- The process environment: an association list of variable names to
values.  `os.Getenv` returns `""` for an unset variable, so an absent key
and a key mapped to `""` are indistinguishable, exactly as in Go. -/
abbrev Env := List (String × String)

/-- `os.Getenv`: value of the first binding of `key`, `""` when unset. -/
def osGetenv (env : Env) (key : String) : String :=
  match List.find? (fun p => p.1 = key) env with
  | some p => p.2
  | none => ""

/-- `getEnv` from config.go: the variable's value when non-empty,
otherwise the supplied default. -/
def getEnv (env : Env) (key defaultValue : String) : String :=
  let value := osGetenv env key
  if value ≠ "" then value else defaultValue

/-- `strconv.ParseBool`: accepts exactly the twelve literals Go accepts. -/
def parseBool (s : String) : Option Bool :=
  if s = "1" ∨ s = "t" ∨ s = "T" ∨ s = "true" ∨ s = "TRUE" ∨ s = "True" then
    some true
  else if s = "0" ∨ s = "f" ∨ s = "F" ∨ s = "false" ∨ s = "FALSE" ∨ s = "False" then
    some false
  else none

/-- Decimal digit test, as Go's `'0' <= c && c <= '9'`. -/
def isDigit (c : Char) : Bool := '0' ≤ c ∧ c ≤ '9'

/-- Accumulate a run of decimal digits; `none` when a non-digit appears. -/
def parseDigitsAux : List Char → Nat → Option Nat
  | [], acc => some acc
  | c :: cs, acc =>
    if isDigit c then parseDigitsAux cs (acc * 10 + (c.toNat - Char.toNat '0'))
    else none

/-- `strconv.Atoi` (= `ParseInt` base 10, 64-bit): optional sign, at least
one digit, all digits, result within the signed 64-bit range; any failure,
including overflow, is an error (`none`). -/
def atoi (s : String) : Option Int :=
  match s.data with
  | [] => none
  | c :: cs =>
    let (neg, digits) :=
      if c = '-' then (true, cs)
      else if c = '+' then (false, cs)
      else (false, c :: cs)
    match digits with
    | [] => none
    | _ :: _ =>
      match parseDigitsAux digits 0 with
      | none => none
      | some n =>
        let v : Int := if neg then -(n : Int) else (n : Int)
        if v < -(2 ^ 63) ∨ (2 ^ 63 : Int) ≤ v then none else some v

/-- Nanoseconds in each duration unit Go's `time.ParseDuration` accepts. -/
def unitNanos (u : List Char) : Option Nat :=
  if u = ['n', 's'] then some 1
  else if u = ['u', 's'] then some 1000
  else if u = ['µ', 's'] then some 1000
  else if u = ['μ', 's'] then some 1000
  else if u = ['m', 's'] then some 1000000
  else if u = ['s'] then some 1000000000
  else if u = ['m'] then some 60000000000
  else if u = ['h'] then some 3600000000000
  else none

/-- `time.leadingInt`: consume leading digits into `x`, failing on uint64
overflow with the same two checks Go performs. -/
def leadingInt : List Char → Nat → Option (Nat × List Char)
  | [], x => some (x, [])
  | c :: cs, x =>
    if isDigit c then
      if x > 2 ^ 63 / 10 then none
      else
        let x2 := x * 10 + (c.toNat - Char.toNat '0')
        if x2 > 2 ^ 63 then none
        else leadingInt cs x2
    else some (x, c :: cs)

/-- `time.leadingFraction`: consume fractional digits, ignoring digits once
the accumulator would overflow; returns the digits read, the scale
(10^digits kept) and the rest.  Go tracks `scale` as a float64; here it is
the exact power of ten. -/
def leadingFraction : List Char → Nat → Nat → Bool → Nat × Nat × List Char
  | [], x, scale, _ => (x, scale, [])
  | c :: cs, x, scale, overflow =>
    if isDigit c then
      if overflow then leadingFraction cs x scale overflow
      else if x > (2 ^ 63 - 1) / 10 then leadingFraction cs x scale true
      else
        let y := x * 10 + (c.toNat - Char.toNat '0')
        if y > 2 ^ 63 then leadingFraction cs x scale true
        else leadingFraction cs y (scale * 10) overflow
    else (x, scale, c :: cs)

/-- Split off the unit: the chars before the next digit or `'.'`. -/
def spanUnit : List Char → List Char × List Char
  | [] => ([], [])
  | c :: cs =>
    if c = '.' ∨ isDigit c then ([], c :: cs)
    else
      let (u, rest) := spanUnit cs
      (c :: u, rest)

/-- One-number-plus-unit loop of `time.ParseDuration` on the unsigned part,
accumulating nanoseconds in `d`.  `fuel` bounds the iterations (each one
consumes at least the unit's character, so `length + 1` always suffices).
The fractional contribution, which Go computes through float64 as
`uint64(float64(f) * (float64(unit) / scale))`, is modelled by the exact
truncated quotient `f * unit / scale`. -/
def parseDurationLoop : Nat → List Char → Nat → Option Nat
  | 0, _, _ => none
  | _, [], d => some d
  | fuel + 1, c :: cs, d =>
    let s := c :: cs
    if ¬(c = '.' ∨ isDigit c) then none
    else
      let pl := s.length
      match leadingInt s 0 with
      | none => none
      | some (v, s1) =>
        let pre := decide (pl ≠ s1.length)
        let (f, scale, s2, post) :=
          match s1 with
          | '.' :: s1' =>
            let pl2 := s1'.length
            let (f, scale, rest) := leadingFraction s1' 0 1 false
            (f, scale, rest, decide (pl2 ≠ rest.length))
          | _ => (0, 1, s1, false)
        if pre = false ∧ post = false then none
        else
          let (u, s3) := spanUnit s2
          if u = [] then none
          else
            match unitNanos u with
            | none => none
            | some unit =>
              if v > 2 ^ 63 / unit then none
              else
                let v2 := v * unit
                if f > 0 then
                  let v3 := v2 + f * unit / scale
                  if v3 > 2 ^ 63 then none
                  else
                    let d2 := d + v3
                    if d2 > 2 ^ 63 then none
                    else parseDurationLoop fuel s3 d2
                else
                  let d2 := d + v2
                  if d2 > 2 ^ 63 then none
                  else parseDurationLoop fuel s3 d2

/-- `time.ParseDuration`: optional sign, special case `"0"`, then the
number-unit loop; the result is nanoseconds as a signed 64-bit value. -/
def parseDuration (s : String) : Option Int :=
  let cs := s.data
  let (neg, cs1) :=
    match cs with
    | c :: rest =>
      if c = '-' then (true, rest)
      else if c = '+' then (false, rest)
      else (false, cs)
    | [] => (false, cs)
  if cs1 = ['0'] then some 0
  else if cs1 = [] then none
  else
    match parseDurationLoop (cs1.length + 1) cs1 0 with
    | none => none
    | some d =>
      if neg then some (-(d : Int))
      else if d > 2 ^ 63 - 1 then none
      else some (d : Int)

/-- `time.Second` in nanoseconds. -/
def second : Int := 1000000000

/-- `time.Minute` in nanoseconds. -/
def minute : Int := 60 * second

/-- `time.Hour` in nanoseconds. -/
def hour : Int := 60 * minute

/-- `getEnvAsBool`: unset/empty or unparseable gives the default (the Go
code prints a warning and falls back), otherwise the parsed bool. -/
def getEnvAsBool (env : Env) (key : String) (defaultValue : Bool) : Bool :=
  let strValue := getEnv env key ""
  if strValue = "" then defaultValue
  else
    match parseBool strValue with
    | none => defaultValue
    | some b => b

/-- `getEnvAsInt`: unset/empty or unparseable gives the default, otherwise
the parsed integer. -/
def getEnvAsInt (env : Env) (key : String) (defaultValue : Int) : Int :=
  let strValue := getEnv env key ""
  if strValue = "" then defaultValue
  else
    match atoi strValue with
    | none => defaultValue
    | some n => n

/-- `getEnvAsDuration`: unset/empty or unparseable gives the default,
otherwise the parsed duration in nanoseconds. -/
def getEnvAsDuration (env : Env) (key : String) (defaultValue : Int) : Int :=
  let strValue := getEnv env key ""
  if strValue = "" then defaultValue
  else
    match parseDuration strValue with
    | none => defaultValue
    | some d => d

/-- `getEnvAsSlice`: split on the delimiter and trim each part; unset or
empty gives the default slice. -/
def getEnvAsSlice (env : Env) (key delimiter : String) (defaultValue : List String) :
    List String :=
  let strValue := getEnv env key ""
  if strValue = "" then defaultValue
  else (strValue.splitOn delimiter).map String.trim

/-- The `Paytrail` section of `Config`. -/
structure PaytrailConfig where
  merchantID : String
  secretKey : String
  baseURL : String
  callbackURL : String
  successURL : String
  cancelURL : String
  deriving Repr, DecidableEq

/-- The `Kong` section of `Config`. -/
structure KongConfig where
  internalAuth : String
  allowedIPs : List String
  adminAPIURL : String
  serviceURL : String
  deriving Repr, DecidableEq

/-- The `JWT` section of `Config`; expiries are nanosecond durations. -/
structure JWTConfig where
  secret : String
  accessTokenExpiry : Int
  refreshTokenExpiry : Int
  deriving Repr, DecidableEq

/-- The `Config` struct of config.go. -/
structure Config where
  port : String
  environment : String
  debugMode : Bool
  databaseURL : String
  maxConnections : Int
  timeout : Int
  paytrail : PaytrailConfig
  kong : KongConfig
  jwt : JWTConfig
  deriving Repr, DecidableEq

/-- `loadPaytrailConfig`: required merchant id, secret and the three URLs;
base URL has a default. -/
def loadPaytrailConfig (env : Env) : Except String PaytrailConfig :=
  let merchantID := getEnv env "PAYTRAIL_MERCHANT_ID" ""
  if merchantID = "" then .error "PAYTRAIL_MERCHANT_ID is required"
  else
    let secretKey := getEnv env "PAYTRAIL_SECRET_KEY" ""
    if secretKey = "" then .error "PAYTRAIL_SECRET_KEY is required"
    else
      let baseURL := getEnv env "PAYTRAIL_BASE_URL" "https://services.paytrail.com"
      let callbackURL := getEnv env "PAYTRAIL_CALLBACK_URL" ""
      let successURL := getEnv env "PAYTRAIL_SUCCESS_URL" ""
      let cancelURL := getEnv env "PAYTRAIL_CANCEL_URL" ""
      if callbackURL = "" then .error "PAYTRAIL_CALLBACK_URL is required"
      else if successURL = "" then .error "PAYTRAIL_SUCCESS_URL is required"
      else if cancelURL = "" then .error "PAYTRAIL_CANCEL_URL is required"
      else .ok ⟨merchantID, secretKey, baseURL, callbackURL, successURL, cancelURL⟩

/-- `loadKongConfig`: required internal auth token, optional rest. -/
def loadKongConfig (env : Env) : Except String KongConfig :=
  let internalAuth := getEnv env "KONG_INTERNAL_AUTH" ""
  if internalAuth = "" then .error "KONG_INTERNAL_AUTH is required"
  else
    .ok ⟨internalAuth,
      getEnvAsSlice env "KONG_ALLOWED_IPS" "," [],
      getEnv env "KONG_ADMIN_API_URL" "",
      getEnv env "KONG_SERVICE_URL" "http://localhost:8080"⟩

/-- `loadJWTConfig`: required secret; expiries default to 15 minutes and
7 days. -/
def loadJWTConfig (env : Env) : Except String JWTConfig :=
  let secret := getEnv env "JWT_SECRET" ""
  if secret = "" then .error "JWT_SECRET is required"
  else
    .ok ⟨secret,
      getEnvAsDuration env "JWT_ACCESS_TOKEN_EXPIRY" (15 * minute),
      getEnvAsDuration env "JWT_REFRESH_TOKEN_EXPIRY" (7 * 24 * hour)⟩

/-- `(*Config).validate`, in the source's check order: environment must be
one of the three known names; in production debug mode is forbidden and
the access-token expiry may not exceed one hour; the timeout is at least a
second; max connections at least one. -/
def validate (c : Config) : Option String :=
  if ¬(c.environment = "development" ∨ c.environment = "staging" ∨
      c.environment = "production") then
    some "invalid environment"
  else if c.environment = "production" ∧ c.debugMode then
    some "debug mode should not be enabled in production"
  else if c.environment = "production" ∧ c.jwt.accessTokenExpiry > hour then
    some "access token expiry too long for production environment"
  else if c.timeout < second then
    some "timeout must be at least 1 second"
  else if c.maxConnections < 1 then
    some "max connections must be at least 1"
  else none

/-- `config.Load`: base fields with defaults, required DATABASE_URL, the
three section loaders, then `validate`. -/
def Load (env : Env) : Except String Config :=
  let port := getEnv env "PORT" "8080"
  let environment := getEnv env "ENVIRONMENT" "development"
  let debugMode := getEnvAsBool env "DEBUG_MODE" false
  let maxConnections := getEnvAsInt env "MAX_CONNECTIONS" 100
  let timeout := getEnvAsDuration env "TIMEOUT" (30 * second)
  let databaseURL := getEnv env "DATABASE_URL" ""
  if databaseURL = "" then .error "DATABASE_URL environment variable is required"
  else
    match loadPaytrailConfig env with
    | .error e => .error ("paytrail configuration error: " ++ e)
    | .ok paytrail =>
      match loadKongConfig env with
      | .error e => .error ("kong configuration error: " ++ e)
      | .ok kong =>
        match loadJWTConfig env with
        | .error e => .error ("jwt configuration error: " ++ e)
        | .ok jwt =>
          let cfg : Config :=
            ⟨port, environment, debugMode, databaseURL, maxConnections, timeout,
              paytrail, kong, jwt⟩
          match validate cfg with
          | some e => .error ("configuration validation failed: " ++ e)
          | none => .ok cfg

/-- `(*Config).IsProduction`. -/
def isProduction (c : Config) : Bool := c.environment = "production"

/-- `(*Config).IsDevelopment`. -/
def isDevelopment (c : Config) : Bool := c.environment = "development"

end Config

/-! ## Embedding of the route table registered by `setupRoutes` (main.go)

Every `HandleFunc` call in `setupRoutes` becomes one entry, with the
subrouter path prefixes (`/api/v1`, `/admin`, `/cart`, `/orders`,
`/payments`) expanded to the full path and the `Methods(...)` restriction
recorded.  The trailing `PathPrefix("/")` catch-all, which matches any
method, is recorded with method `"ANY"`. -/

namespace Routes

/-- The handler a route dispatches to, named `<receiver><method>` after the
Go handler method. -/
inductive Handler where
  | healthCheck
  | healthCheckDatabase
  | healthCheckReadiness
  | productGetAll
  | productGetByID
  | productGetByCategory
  | productSearch
  | productGetCategories
  | productCreate
  | productUpdate
  | productDelete
  | cartGet
  | cartAddItem
  | cartUpdateItem
  | cartRemoveItem
  | cartClear
  | orderCreate
  | orderGetUserOrders
  | orderGetByID
  | orderCancel
  | paymentCreatePayment
  | paymentGetPaymentStatus
  | paymentHandleCallback
  | paymentHandleSuccess
  | paymentHandleCancel
  | apiRoot
  | notFoundFallback
  deriving Repr, DecidableEq

/-- One registered route: HTTP method, full path pattern, handler. -/
structure Route where
  method : String
  path : String
  handler : Handler
  deriving Repr, DecidableEq

/-- The complete route table of `setupRoutes`, in registration order. -/
def setupRoutes : List Route :=
  [⟨"GET", "/api/v1/health", .healthCheck⟩,
   ⟨"GET", "/api/v1/health/db", .healthCheckDatabase⟩,
   ⟨"GET", "/api/v1/health/ready", .healthCheckReadiness⟩,
   ⟨"GET", "/api/v1/products", .productGetAll⟩,
   ⟨"GET", "/api/v1/products/{id}", .productGetByID⟩,
   ⟨"GET", "/api/v1/products/category/{category}", .productGetByCategory⟩,
   ⟨"GET", "/api/v1/products/search", .productSearch⟩,
   ⟨"GET", "/api/v1/categories", .productGetCategories⟩,
   ⟨"POST", "/api/v1/admin/products", .productCreate⟩,
   ⟨"PUT", "/api/v1/admin/products/{id}", .productUpdate⟩,
   ⟨"DELETE", "/api/v1/admin/products/{id}", .productDelete⟩,
   ⟨"GET", "/api/v1/cart", .cartGet⟩,
   ⟨"POST", "/api/v1/cart", .cartAddItem⟩,
   ⟨"PUT", "/api/v1/cart/items/{id}", .cartUpdateItem⟩,
   ⟨"DELETE", "/api/v1/cart/items/{id}", .cartRemoveItem⟩,
   ⟨"DELETE", "/api/v1/cart/clear", .cartClear⟩,
   ⟨"POST", "/api/v1/orders", .orderCreate⟩,
   ⟨"GET", "/api/v1/orders", .orderGetUserOrders⟩,
   ⟨"GET", "/api/v1/orders/{id}", .orderGetByID⟩,
   ⟨"POST", "/api/v1/orders/{id}/cancel", .orderCancel⟩,
   ⟨"POST", "/api/v1/payments", .paymentCreatePayment⟩,
   ⟨"GET", "/api/v1/payments/{id}/status", .paymentGetPaymentStatus⟩,
   ⟨"POST", "/api/v1/payments/callback", .paymentHandleCallback⟩,
   ⟨"GET", "/api/v1/payments/success", .paymentHandleSuccess⟩,
   ⟨"GET", "/api/v1/payments/cancel", .paymentHandleCancel⟩,
   ⟨"GET", "/api/v1/", .apiRoot⟩,
   ⟨"ANY", "/api/v1/", .notFoundFallback⟩]

end Routes

/-! ## Embedding of the exported surface of `pkg/logger/logger.go` and the
handler construction in `main` -/

namespace LoggerSurface

/-- How a logging function of `pkg/logger` is exported: as a method on a
`*Logger` receiver, or as a package-level function callable without any
`Logger` value. -/
inductive ExportKind where
  | method
  | packageLevel
  deriving Repr, DecidableEq

/-- One exported logging function of `pkg/logger`. -/
structure LogExport where
  name : String
  kind : ExportKind
  deriving Repr, DecidableEq

/-- The exported logging functions of `pkg/logger/logger.go`: three
`Logger` methods, and the three package-level functions the source marks
"Global functions for convenience". -/
def loggerExports : List LogExport :=
  [⟨"Info", .method⟩,
   ⟨"Error", .method⟩,
   ⟨"Debug", .method⟩,
   ⟨"Info", .packageLevel⟩,
   ⟨"Error", .packageLevel⟩,
   ⟨"Debug", .packageLevel⟩]

/-- One handler constructor call in `main`, recording whether the `log`
collaborator built by `logger.New` is passed in as an argument. -/
structure HandlerConstruction where
  name : String
  loggerInjected : Bool
  deriving Repr, DecidableEq

/-- The five handler constructions in `main`: each receives the `log`
instance as an explicit argument. -/
def mainHandlerConstructions : List HandlerConstruction :=
  [⟨"HealthHandler", true⟩,
   ⟨"ProductHandler", true⟩,
   ⟨"CartHandler", true⟩,
   ⟨"OrderHandler", true⟩,
   ⟨"PaymentHandler", true⟩]

end LoggerSurface

/-! ## The order/payment coordinator of spec §4.2–§4.4

The Go source of the Order Store, Gateway Client and Coordinator is not in
the repository tree (only `main.go` constructs and routes to the
handlers), so this section is modelled from the spec's own description and
every definition says so. -/

namespace Coordinator

/-- Modelled from the spec: order status, §3 Data Model. -/
inductive OrderStatus where
  | pending
  | awaitingPayment
  | paid
  | failed
  | cancelled
  | expired
  deriving Repr, DecidableEq

/-- Modelled from the spec: payment-attempt status, §3 Data Model. -/
inductive AttemptStatus where
  | created
  | active
  | confirmed
  | failed
  | expired
  deriving Repr, DecidableEq

/-- Modelled from the spec: a line item of an order's immutable snapshot;
the unit price is in minor currency units. -/
structure LineItem where
  productId : Nat
  quantity : Nat
  unitPrice : Nat
  deriving Repr, DecidableEq

/-- Modelled from the spec: an order record, §3 Data Model. -/
structure Order where
  id : Nat
  userId : Nat
  items : List LineItem
  currency : String
  total : Nat
  status : OrderStatus
  deriving Repr, DecidableEq

/-- Modelled from the spec: a payment-attempt record, §3 Data Model. -/
structure Attempt where
  id : Nat
  orderId : Nat
  providerRef : Nat
  amount : Nat
  status : AttemptStatus
  createdAt : Nat
  deriving Repr, DecidableEq

/-- Modelled from the spec: the persisted orders and attempts, the shared
state the store owns. -/
structure CoordState where
  orders : List Order
  attempts : List Attempt
  deriving Repr, DecidableEq

/-- Modelled from the spec: the terminal order states {PAID, CANCELLED,
EXPIRED}, §3. -/
def isTerminal : OrderStatus → Bool
  | .paid => true
  | .cancelled => true
  | .expired => true
  | _ => false

/-- Modelled from the spec: the derived order total,
`Σ(line.quantity × line.unitPrice)`. -/
def orderTotal (items : List LineItem) : Nat :=
  (items.map fun l => l.quantity * l.unitPrice).sum

/-- Modelled from the spec: the store's `getById` read accessor
(first record with the given id). -/
def findOrder (orders : List Order) (orderId : Nat) : Option Order :=
  List.find? (fun o => o.id = orderId) orders

/-- Modelled from the spec: `updateStatus(orderId, fromStatus, toStatus)`,
the compare-and-swap transition of §4.2 — the first record with the id is
rewritten to `toStatus` and `true` returned exactly when its current
status equals `fromStatus`; otherwise the store is unchanged and `false`
returned. -/
def updateStatus : List Order → Nat → OrderStatus → OrderStatus → List Order × Bool
  | [], _, _, _ => ([], false)
  | o :: rest, orderId, fromStatus, toStatus =>
    if o.id = orderId then
      if o.status = fromStatus then ({ o with status := toStatus } :: rest, true)
      else (o :: rest, false)
    else
      (o :: (updateStatus rest orderId fromStatus toStatus).1,
       (updateStatus rest orderId fromStatus toStatus).2)

/-- Modelled from the spec: a callback's outcome code, success or cancel. -/
inductive Outcome where
  | success
  | cancel
  deriving Repr, DecidableEq

/-- Numeric encoding of an outcome for the authentication code. -/
def outcomeCode : Outcome → Nat
  | .success => 1
  | .cancel => 2

/-- One mixing step of the modelled keyed hash (64-bit accumulator). -/
def macStep (h x : Nat) : Nat := (h * 1099511628211 + x) % 2 ^ 64

/-- Modelled from the spec: the authentication code over the canonical,
financially meaningful callback fields (order id, provider reference,
outcome) keyed by the shared secret, §4.3. -/
def computeMac (secret orderId providerRef : Nat) (oc : Outcome) : Nat :=
  macStep (macStep (macStep (macStep 14695981039346656037 secret) orderId) providerRef)
    (outcomeCode oc)

/-- Modelled from the spec: an inbound provider callback — payload fields
plus the signature the sender attached. -/
structure Callback where
  orderId : Nat
  providerRef : Nat
  outcome : Outcome
  mac : Nat
  deriving Repr, DecidableEq

/-- Modelled from the spec: `verifySignature` recomputes the
authentication code over the received payload with the shared secret and
compares, §4.3 — the sole gate deciding whether a callback is trusted. -/
def verifySignature (secret : Nat) (cb : Callback) : Bool :=
  cb.mac = computeMac secret cb.orderId cb.providerRef cb.outcome

/-- Modelled from the spec: what `handleCallback` reports — a trust
rejection, an idempotent/success acknowledgment, or an unknown order. -/
inductive CallbackResult where
  | rejected
  | acknowledged
  | orderMissing
  deriving Repr, DecidableEq

/-- Modelled from the spec: rewrite the attempt with the given provider
reference to a new status. -/
def setAttemptStatus (attempts : List Attempt) (providerRef : Nat)
    (st : AttemptStatus) : List Attempt :=
  attempts.map fun a => if a.providerRef = providerRef then { a with status := st } else a

/-- Modelled from the spec: `handleCallback`, §4.4 — verify the signature
(on failure the event is logged and rejected, state untouched); load the
order; if terminal, acknowledge idempotently; otherwise apply the matching
transition by compare-and-swap from AWAITING_PAYMENT, marking the attempt
CONFIRMED on success or FAILED on cancel; a losing compare-and-swap is a
no-op acknowledged as success. -/
def handleCallback (secret : Nat) (st : CoordState) (cb : Callback) :
    CoordState × CallbackResult :=
  if verifySignature secret cb then
    match findOrder st.orders cb.orderId with
    | none => (st, .orderMissing)
    | some o =>
      if isTerminal o.status then (st, .acknowledged)
      else
        match cb.outcome with
        | .success =>
          if (updateStatus st.orders cb.orderId .awaitingPayment .paid).2 then
            ({ orders := (updateStatus st.orders cb.orderId .awaitingPayment .paid).1,
               attempts := setAttemptStatus st.attempts cb.providerRef .confirmed },
             .acknowledged)
          else (st, .acknowledged)
        | .cancel =>
          if (updateStatus st.orders cb.orderId .awaitingPayment .cancelled).2 then
            ({ orders := (updateStatus st.orders cb.orderId .awaitingPayment .cancelled).1,
               attempts := setAttemptStatus st.attempts cb.providerRef .failed },
             .acknowledged)
          else (st, .acknowledged)
  else (st, .rejected)

/-- Modelled from the spec: what `cancelOrder` reports. -/
inductive CancelResult where
  | orderMissing
  | forbidden
  | acknowledged
  deriving Repr, DecidableEq

/-- Modelled from the spec: mark the order's active attempts FAILED when a
user cancel wins. -/
def failActiveAttempts (attempts : List Attempt) (orderId : Nat) : List Attempt :=
  attempts.map fun a =>
    if a.orderId = orderId ∧ a.status = .active then { a with status := .failed } else a

/-- Modelled from the spec: `cancelOrder(orderId, requestingUserId)`, §4.4
— the order must belong to the requester; a terminal order is acknowledged
as an idempotent no-op; otherwise the compare-and-swap transition to
CANCELLED is applied and active attempts become FAILED. -/
def cancelOrder (st : CoordState) (orderId requestingUserId : Nat) :
    CoordState × CancelResult :=
  match findOrder st.orders orderId with
  | none => (st, .orderMissing)
  | some o =>
    if o.userId ≠ requestingUserId then (st, .forbidden)
    else if isTerminal o.status then (st, .acknowledged)
    else
      ({ orders := (updateStatus st.orders orderId o.status .cancelled).1,
         attempts := failActiveAttempts st.attempts orderId },
       .acknowledged)

/-- Modelled from the spec: what `initiatePayment` reports. -/
inductive InitResult where
  | orderMissing
  | redirect
  | conflict
  deriving Repr, DecidableEq

/-- Modelled from the spec: `initiatePayment(orderId)`, §4.4 — requires a
PENDING order, performs the compare-and-swap `PENDING → AWAITING_PAYMENT`
and records an ACTIVE attempt for the order's total; a lost race or a
non-PENDING order is a conflict no-op. -/
def initiatePayment (st : CoordState) (orderId attemptId providerRef now : Nat) :
    CoordState × InitResult :=
  match findOrder st.orders orderId with
  | none => (st, .orderMissing)
  | some o =>
    if o.status = .pending then
      if (updateStatus st.orders orderId .pending .awaitingPayment).2 then
        ({ orders := (updateStatus st.orders orderId .pending .awaitingPayment).1,
           attempts := ⟨attemptId, orderId, providerRef, o.total, .active, now⟩ ::
             st.attempts },
         .redirect)
      else (st, .conflict)
    else (st, .conflict)

/-- Modelled from the spec: `createOrder`, §4.2/§4.4 — persist a new
PENDING order whose total is derived from the snapshot. -/
def createOrder (st : CoordState) (orderId userId : Nat) (snapshot : List LineItem)
    (currency : String) : CoordState × Order :=
  let o : Order := ⟨orderId, userId, snapshot, currency, orderTotal snapshot, .pending⟩
  ({ st with orders := o :: st.orders }, o)

/-- Modelled from the spec: does the order have an ACTIVE attempt older
than the expiry window? -/
def hasStaleActiveAttempt (attempts : List Attempt) (orderId now window : Nat) : Bool :=
  attempts.any fun a =>
    a.orderId = orderId ∧ a.status = .active ∧ a.createdAt + window < now

/-- Modelled from the spec: `expireStalePayments(now)`, §4.4 — sweep the
orders in AWAITING_PAYMENT whose active attempt is older than the window
to EXPIRED (their stale active attempts likewise), returning the count;
terminal orders are never touched. -/
def expireStalePayments (st : CoordState) (now window : Nat) : CoordState × Nat :=
  let stale := fun (o : Order) =>
    o.status = OrderStatus.awaitingPayment ∧
      hasStaleActiveAttempt st.attempts o.id now window
  let orders2 := st.orders.map fun o => if stale o then { o with status := .expired } else o
  let attempts2 := st.attempts.map fun a =>
    if a.status = AttemptStatus.active ∧ a.createdAt + window < now ∧
        (st.orders.any fun o => o.id = a.orderId ∧ stale o) then
      { a with status := .expired }
    else a
  (⟨orders2, attempts2⟩, (st.orders.filter stale).length)

/-- The spec's total invariant over a store of orders:
`total == Σ(line.quantity × line.unitPrice)` for every order. -/
def totalsOk (orders : List Order) : Prop :=
  ∀ o ∈ orders, o.total = orderTotal o.items

instance (orders : List Order) : Decidable (totalsOk orders) :=
  inferInstanceAs (Decidable (∀ o ∈ orders, o.total = orderTotal o.items))

/-! ### Concrete fixtures, used to evaluate the theorems on sample data -/

/-- A paid two-line order: 2 × 1000 + 1 × 500 = 2500 minor units. -/
def sampleOrder : Order := ⟨1, 7, [⟨100, 2, 1000⟩, ⟨101, 1, 500⟩], "EUR", 2500, .paid⟩

/-- An order still awaiting payment. -/
def sampleAwaiting : Order := ⟨2, 8, [⟨102, 3, 200⟩], "EUR", 600, .awaitingPayment⟩

/-- The active attempt of the awaiting order. -/
def sampleAttempt : Attempt := ⟨10, 2, 77, 600, .active, 1000⟩

/-- A sample store state holding both orders and the attempt. -/
def sampleState : CoordState := ⟨[sampleOrder, sampleAwaiting], [sampleAttempt]⟩

/-- A correctly signed success callback for order 1 under secret 42. -/
def sampleCallback : Callback := ⟨1, 77, .success, computeMac 42 1 77 .success⟩

/-- The same success callback with a corrupted signature. -/
def forgedCallback : Callback := ⟨1, 77, .success, computeMac 42 1 77 .success + 1⟩

end Coordinator

namespace Config

/-- A sample environment with every required variable set and everything
optional left to its default. -/
def sampleEnv : Env :=
  [("DATABASE_URL", "postgres://db"),
   ("PAYTRAIL_MERCHANT_ID", "375917"),
   ("PAYTRAIL_SECRET_KEY", "SAIPPUAKAUPPIAS"),
   ("PAYTRAIL_CALLBACK_URL", "https://shop.example/cb"),
   ("PAYTRAIL_SUCCESS_URL", "https://shop.example/ok"),
   ("PAYTRAIL_CANCEL_URL", "https://shop.example/no"),
   ("KONG_INTERNAL_AUTH", "token"),
   ("JWT_SECRET", "jwtsecret")]

/-- The configuration `Load` produces from `sampleEnv`: every default
filled in, 30 s timeout, 15 min / 7 d JWT expiries. -/
def sampleConfig : Config :=
  ⟨"8080", "development", false, "postgres://db", 100, 30000000000,
   ⟨"375917", "SAIPPUAKAUPPIAS", "https://services.paytrail.com",
    "https://shop.example/cb", "https://shop.example/ok", "https://shop.example/no"⟩,
   ⟨"token", [], "", "http://localhost:8080"⟩,
   ⟨"jwtsecret", 900000000000, 604800000000000⟩⟩

/-- The environment variables `Load` refuses to run without. -/
def requiredVars : List String :=
  ["DATABASE_URL", "PAYTRAIL_MERCHANT_ID", "PAYTRAIL_SECRET_KEY",
   "PAYTRAIL_CALLBACK_URL", "PAYTRAIL_SUCCESS_URL", "PAYTRAIL_CANCEL_URL",
   "KONG_INTERNAL_AUTH", "JWT_SECRET"]

end Config

/-! ## Store lemmas -/

namespace Coordinator

theorem findOrder_cons (o : Order) (rest : List Order) (orderId : Nat) :
    findOrder (o :: rest) orderId =
      if o.id = orderId then some o else findOrder rest orderId := by
  by_cases h : o.id = orderId
  · simp [findOrder, List.find?_cons_of_pos, h]
  · simp [findOrder, List.find?_cons_of_neg, h]

theorem findOrder_map (g : Order → Order) (hid : ∀ o, (g o).id = o.id)
    (orders : List Order) (orderId : Nat) :
    findOrder (orders.map g) orderId = (findOrder orders orderId).map g := by
  induction orders with
  | nil => rfl
  | cons a rest ih =>
    rw [List.map_cons, findOrder_cons, findOrder_cons, hid]
    split
    · rfl
    · simpa using ih

theorem updateStatus_of_findOrder_none (orders : List Order) (orderId : Nat)
    (fromStatus toStatus : OrderStatus) (h : findOrder orders orderId = none) :
    updateStatus orders orderId fromStatus toStatus = (orders, false) := by
  induction orders with
  | nil => rfl
  | cons a rest ih =>
    rw [findOrder_cons] at h
    split at h
    · cases h
    · rename_i hid
      simp only [updateStatus, if_neg hid, ih h]

theorem updateStatus_mismatch (orders : List Order) (orderId : Nat)
    (fromStatus toStatus : OrderStatus) (o : Order)
    (hf : findOrder orders orderId = some o) (hs : o.status ≠ fromStatus) :
    updateStatus orders orderId fromStatus toStatus = (orders, false) := by
  induction orders with
  | nil => cases hf
  | cons a rest ih =>
    rw [findOrder_cons] at hf
    split at hf
    · rename_i hid
      injection hf with hao
      subst hao
      simp only [updateStatus, if_pos hid, if_neg hs]
    · rename_i hid
      simp only [updateStatus, if_neg hid, ih hf]

theorem updateStatus_hit (orders : List Order) (orderId : Nat)
    (fromStatus toStatus : OrderStatus) (o : Order)
    (hf : findOrder orders orderId = some o) (hs : o.status = fromStatus) :
    (updateStatus orders orderId fromStatus toStatus).2 = true ∧
    findOrder (updateStatus orders orderId fromStatus toStatus).1 orderId =
      some { o with status := toStatus } := by
  induction orders with
  | nil => cases hf
  | cons a rest ih =>
    rw [findOrder_cons] at hf
    split at hf
    · rename_i hid
      injection hf with hao
      subst hao
      simp only [updateStatus, if_pos hid, if_pos hs]
      exact ⟨by trivial, by rw [findOrder_cons, if_pos hid]⟩
    · rename_i hid
      simp only [updateStatus, if_neg hid]
      refine ⟨(ih hf).1, ?_⟩
      rw [findOrder_cons, if_neg hid]
      exact (ih hf).2

theorem mem_updateStatus (orders : List Order) (orderId : Nat)
    (fromStatus toStatus : OrderStatus) (o' : Order)
    (h : o' ∈ (updateStatus orders orderId fromStatus toStatus).1) :
    ∃ o ∈ orders, o'.items = o.items ∧ o'.total = o.total := by
  induction orders with
  | nil => simp [updateStatus] at h
  | cons a rest ih =>
    simp only [updateStatus] at h
    by_cases hid : a.id = orderId
    · rw [if_pos hid] at h
      by_cases hs : a.status = fromStatus
      · rw [if_pos hs] at h
        rcases List.mem_cons.mp h with rfl | h2
        · exact ⟨a, List.mem_cons_self a rest, rfl, rfl⟩
        · exact ⟨o', List.mem_cons_of_mem a h2, rfl, rfl⟩
      · rw [if_neg hs] at h
        rcases List.mem_cons.mp h with rfl | h2
        · exact ⟨o', List.mem_cons_self o' rest, rfl, rfl⟩
        · exact ⟨o', List.mem_cons_of_mem a h2, rfl, rfl⟩
    · rw [if_neg hid] at h
      rcases List.mem_cons.mp h with rfl | h2
      · exact ⟨o', List.mem_cons_self o' rest, rfl, rfl⟩
      · rcases ih h2 with ⟨o, ho, hi, ht⟩
        exact ⟨o, List.mem_cons_of_mem a ho, hi, ht⟩

theorem totalsOk_updateStatus (orders : List Order) (orderId : Nat)
    (fromStatus toStatus : OrderStatus) (h : totalsOk orders) :
    totalsOk (updateStatus orders orderId fromStatus toStatus).1 := by
  intro o' ho'
  rcases mem_updateStatus orders orderId fromStatus toStatus o' ho' with ⟨o, ho, hi, ht⟩
  rw [ht, hi]
  exact h o ho

theorem totalsOk_map (orders : List Order) (g : Order → Order)
    (hg : ∀ o, (g o).items = o.items ∧ (g o).total = o.total)
    (h : totalsOk orders) : totalsOk (orders.map g) := by
  intro o' ho'
  rcases List.mem_map.mp ho' with ⟨o, ho, rfl⟩
  rw [(hg o).1, (hg o).2]
  exact h o ho

theorem terminal_ne_awaiting {s : OrderStatus} (h : isTerminal s = true) :
    ¬ s = OrderStatus.awaitingPayment := by
  cases s <;> simp_all [isTerminal]

/-! ## Claims about the coordinator -/

/-- Claim C1: a payment callback whose signature fails verification never
changes order state — `handleCallback` leaves the entire store untouched
and reports the event rejected, for every payload content, payloads
claiming a PAID outcome included. -/
theorem handleCallback_forged_noop (secret : Nat) (st : CoordState) (cb : Callback)
    (h : verifySignature secret cb = false) :
    handleCallback secret st cb = (st, CallbackResult.rejected) := by
  simp [handleCallback, h]

/-- Evaluation of `handleCallback_forged_noop`: a forged success callback
against the sample store is rejected with the store unchanged. -/
theorem handleCallback_forged_noop_witness :
    verifySignature 42 forgedCallback = false ∧
    forgedCallback.outcome = Outcome.success ∧
    handleCallback 42 sampleState forgedCallback = (sampleState, CallbackResult.rejected) :=
  ⟨by decide, by decide,
   handleCallback_forged_noop 42 sampleState forgedCallback (by decide)⟩

/-- Claim C2: once an order is in a terminal status (PAID, CANCELLED or
EXPIRED), a verified callback delivery, the owner's cancel request and the
expiry sweep all leave its state unchanged, and the callback and cancel
are acknowledged rather than reported as errors. -/
theorem terminal_state_absorbing
    (st : CoordState) (o : Order) (secret uid now window : Nat) (cb : Callback)
    (hfind : findOrder st.orders cb.orderId = some o)
    (hterm : isTerminal o.status = true)
    (hver : verifySignature secret cb = true)
    (huser : o.userId = uid) :
    handleCallback secret st cb = (st, CallbackResult.acknowledged)
    ∧ cancelOrder st cb.orderId uid = (st, CancelResult.acknowledged)
    ∧ findOrder (expireStalePayments st now window).1.orders cb.orderId = some o := by
  refine ⟨?_, ?_, ?_⟩
  · simp [handleCallback, hver, hfind, hterm]
  · have hne : ¬ o.userId ≠ uid := by simp [huser]
    simp [cancelOrder, hfind, hne, hterm]
  · have hmap : (expireStalePayments st now window).1.orders = st.orders.map
        (fun o2 => if o2.status = OrderStatus.awaitingPayment ∧
            hasStaleActiveAttempt st.attempts o2.id now window
          then { o2 with status := OrderStatus.expired } else o2) := rfl
    rw [hmap, findOrder_map _ (fun o2 => by split <;> rfl), hfind,
      Option.map_some']
    rw [if_neg (fun hh => terminal_ne_awaiting hterm hh.1)]

/-- Evaluation of `terminal_state_absorbing` on the sample store: order 1
is PAID; the verified callback, the owner's cancel and the sweep all
leave it as it is. -/
theorem terminal_state_absorbing_witness :
    findOrder sampleState.orders sampleCallback.orderId = some sampleOrder ∧
    isTerminal sampleOrder.status = true ∧
    verifySignature 42 sampleCallback = true ∧
    sampleOrder.userId = 7 ∧
    (handleCallback 42 sampleState sampleCallback = (sampleState, CallbackResult.acknowledged)
     ∧ cancelOrder sampleState sampleCallback.orderId 7 = (sampleState, CancelResult.acknowledged)
     ∧ findOrder (expireStalePayments sampleState 2000 500).1.orders sampleCallback.orderId =
         some sampleOrder) :=
  ⟨by decide, by decide, by decide, by decide,
   terminal_state_absorbing sampleState sampleOrder 42 7 2000 500 sampleCallback
     (by decide) (by decide) (by decide) (by decide)⟩

/-- Claim C3: `handleCallback` is idempotent under redelivery — with the
order already PAID, the verified success callback is acknowledged and
leaves the state unchanged, so a second delivery produces exactly the
state and result of the first. -/
theorem handleCallback_idempotent_redelivery
    (secret : Nat) (st : CoordState) (cb : Callback) (o : Order)
    (hfind : findOrder st.orders cb.orderId = some o)
    (hpaid : o.status = OrderStatus.paid)
    (hver : verifySignature secret cb = true)
    (_hout : cb.outcome = Outcome.success) :
    handleCallback secret st cb = (st, CallbackResult.acknowledged)
    ∧ handleCallback secret (handleCallback secret st cb).1 cb = handleCallback secret st cb := by
  have hterm : isTerminal o.status = true := by rw [hpaid]; rfl
  have h1 : handleCallback secret st cb = (st, CallbackResult.acknowledged) := by
    simp [handleCallback, hver, hfind, hterm]
  exact ⟨h1, by rw [h1]; exact h1⟩

/-- Evaluation of `handleCallback_idempotent_redelivery`: redelivering the
verified success callback for the PAID sample order changes nothing. -/
theorem handleCallback_idempotent_redelivery_witness :
    findOrder sampleState.orders sampleCallback.orderId = some sampleOrder ∧
    sampleOrder.status = OrderStatus.paid ∧
    verifySignature 42 sampleCallback = true ∧
    sampleCallback.outcome = Outcome.success ∧
    (handleCallback 42 sampleState sampleCallback = (sampleState, CallbackResult.acknowledged)
     ∧ handleCallback 42 (handleCallback 42 sampleState sampleCallback).1 sampleCallback =
         handleCallback 42 sampleState sampleCallback) :=
  ⟨by decide, by decide, by decide, by decide,
   handleCallback_idempotent_redelivery 42 sampleState sampleCallback sampleOrder
     (by decide) (by decide) (by decide) (by decide)⟩

/-- Claim C4: the order total always equals the sum over the line items of
quantity times unit price — `createOrder` derives it at creation, and
every operation (payment initiation, callback handling, cancel, expiry
sweep) preserves the invariant for every order in the store. -/
theorem order_total_invariant
    (st : CoordState) (orderId userId attemptId providerRef now window secret uid : Nat)
    (snapshot : List LineItem) (currency : String) (cb : Callback)
    (h : totalsOk st.orders) :
    totalsOk (createOrder st orderId userId snapshot currency).1.orders
    ∧ totalsOk (initiatePayment st orderId attemptId providerRef now).1.orders
    ∧ totalsOk (handleCallback secret st cb).1.orders
    ∧ totalsOk (cancelOrder st orderId uid).1.orders
    ∧ totalsOk (expireStalePayments st now window).1.orders := by
  refine ⟨?_, ?_, ?_, ?_, ?_⟩
  · intro o ho
    simp only [createOrder] at ho
    rcases List.mem_cons.mp ho with rfl | h2
    · rfl
    · exact h _ h2
  · unfold initiatePayment
    split
    · exact h
    · split
      · split
        · exact totalsOk_updateStatus _ _ _ _ h
        · exact h
      · exact h
  · unfold handleCallback
    split
    · split
      · exact h
      · split
        · exact h
        · split
          · split
            · exact totalsOk_updateStatus _ _ _ _ h
            · exact h
          · split
            · exact totalsOk_updateStatus _ _ _ _ h
            · exact h
    · exact h
  · unfold cancelOrder
    split
    · exact h
    · split
      · exact h
      · split
        · exact h
        · exact totalsOk_updateStatus _ _ _ _ h
  · exact totalsOk_map st.orders _
      (fun o => ⟨by split <;> rfl, by split <;> rfl⟩) h

/-- Evaluation of `order_total_invariant` on the sample store across all
five operations. -/
theorem order_total_invariant_witness :
    totalsOk sampleState.orders ∧
    (totalsOk (createOrder sampleState 2 9 [⟨103, 2, 50⟩] "EUR").1.orders
     ∧ totalsOk (initiatePayment sampleState 2 11 78 1500).1.orders
     ∧ totalsOk (handleCallback 42 sampleState sampleCallback).1.orders
     ∧ totalsOk (cancelOrder sampleState 2 8).1.orders
     ∧ totalsOk (expireStalePayments sampleState 1500 500).1.orders) :=
  ⟨by decide,
   order_total_invariant sampleState 2 9 11 78 1500 500 42 8 [⟨103, 2, 50⟩] "EUR"
     sampleCallback (by decide)⟩

/-- Claim C5: `updateStatus` is a compare-and-swap — when the order's
current status equals `fromStatus` it rewrites the status to `toStatus`
and returns true; when it differs it returns false and leaves the store
untouched. -/
theorem updateStatus_compare_and_swap
    (orders : List Order) (orderId : Nat) (fromStatus toStatus : OrderStatus) (o : Order)
    (hf : findOrder orders orderId = some o) :
    (o.status = fromStatus →
       (updateStatus orders orderId fromStatus toStatus).2 = true ∧
       findOrder (updateStatus orders orderId fromStatus toStatus).1 orderId =
         some { o with status := toStatus })
    ∧ (o.status ≠ fromStatus →
       updateStatus orders orderId fromStatus toStatus = (orders, false)) :=
  ⟨fun hs => updateStatus_hit orders orderId fromStatus toStatus o hf hs,
   fun hs => updateStatus_mismatch orders orderId fromStatus toStatus o hf hs⟩

/-- Evaluation of `updateStatus_compare_and_swap` on order 2 of the sample
store, transitioning AWAITING_PAYMENT to PAID. -/
theorem updateStatus_compare_and_swap_witness :
    findOrder sampleState.orders 2 = some sampleAwaiting ∧
    ((sampleAwaiting.status = OrderStatus.awaitingPayment →
        (updateStatus sampleState.orders 2 OrderStatus.awaitingPayment OrderStatus.paid).2 =
          true ∧
        findOrder
            (updateStatus sampleState.orders 2 OrderStatus.awaitingPayment
              OrderStatus.paid).1 2 =
          some { sampleAwaiting with status := OrderStatus.paid })
     ∧ (sampleAwaiting.status ≠ OrderStatus.awaitingPayment →
        updateStatus sampleState.orders 2 OrderStatus.awaitingPayment OrderStatus.paid =
          (sampleState.orders, false))) :=
  ⟨by decide,
   updateStatus_compare_and_swap sampleState.orders 2 OrderStatus.awaitingPayment
     OrderStatus.paid sampleAwaiting (by decide)⟩

end Coordinator

/-! ## Claims about the configuration loader -/

namespace Config

theorem getEnv_default_empty (env : Env) (key : String) :
    getEnv env key "" = osGetenv env key := by
  simp only [getEnv]
  split
  · rfl
  · rename_i h
    simp only [ne_eq, not_not] at h
    exact h.symm

theorem loadPaytrail_ok_vars (env : Env) (p : PaytrailConfig)
    (h : loadPaytrailConfig env = Except.ok p) :
    getEnv env "PAYTRAIL_MERCHANT_ID" "" ≠ "" ∧
    getEnv env "PAYTRAIL_SECRET_KEY" "" ≠ "" ∧
    getEnv env "PAYTRAIL_CALLBACK_URL" "" ≠ "" ∧
    getEnv env "PAYTRAIL_SUCCESS_URL" "" ≠ "" ∧
    getEnv env "PAYTRAIL_CANCEL_URL" "" ≠ "" := by
  simp only [loadPaytrailConfig] at h
  split at h
  · exact Except.noConfusion h
  · split at h
    · exact Except.noConfusion h
    · split at h
      · exact Except.noConfusion h
      · split at h
        · exact Except.noConfusion h
        · split at h
          · exact Except.noConfusion h
          · rename_i h1 h2 h3 h4 h5
            exact ⟨h1, h2, h3, h4, h5⟩

theorem loadKong_ok_vars (env : Env) (k : KongConfig)
    (h : loadKongConfig env = Except.ok k) :
    getEnv env "KONG_INTERNAL_AUTH" "" ≠ "" := by
  simp only [loadKongConfig] at h
  split at h
  · exact Except.noConfusion h
  · rename_i h1
    exact h1

theorem loadJWT_ok_vars (env : Env) (j : JWTConfig)
    (h : loadJWTConfig env = Except.ok j) :
    getEnv env "JWT_SECRET" "" ≠ "" := by
  simp only [loadJWTConfig] at h
  split at h
  · exact Except.noConfusion h
  · rename_i h1
    exact h1

theorem load_ok_sections (env : Env) (cfg : Config) (h : Load env = Except.ok cfg) :
    getEnv env "DATABASE_URL" "" ≠ ""
    ∧ (∃ p, loadPaytrailConfig env = Except.ok p)
    ∧ (∃ k, loadKongConfig env = Except.ok k)
    ∧ (∃ j, loadJWTConfig env = Except.ok j) := by
  simp only [Load] at h
  split at h
  · exact Except.noConfusion h
  · rename_i hdb
    split at h
    · exact Except.noConfusion h
    · rename_i p hp
      split at h
      · exact Except.noConfusion h
      · rename_i k hk
        split at h
        · exact Except.noConfusion h
        · rename_i j hj
          exact ⟨hdb, ⟨p, hp⟩, ⟨k, hk⟩, ⟨j, hj⟩⟩

theorem load_ok_vars (env : Env) (cfg : Config) (h : Load env = Except.ok cfg) :
    ∀ key ∈ requiredVars, osGetenv env key ≠ "" := by
  obtain ⟨hdb, ⟨p, hp⟩, ⟨k, hk⟩, ⟨j, hj⟩⟩ := load_ok_sections env cfg h
  have hpay := loadPaytrail_ok_vars env p hp
  have hkong := loadKong_ok_vars env k hk
  have hjwt := loadJWT_ok_vars env j hj
  simp only [getEnv_default_empty] at hdb hpay hkong hjwt
  intro key hkey
  simp only [requiredVars, List.mem_cons, List.not_mem_nil, or_false] at hkey
  rcases hkey with rfl | rfl | rfl | rfl | rfl | rfl | rfl | rfl
  · exact hdb
  · exact hpay.1
  · exact hpay.2.1
  · exact hpay.2.2.1
  · exact hpay.2.2.2.1
  · exact hpay.2.2.2.2
  · exact hkong
  · exact hjwt

/-- Claim C9: `Load` returns an error, never a configuration, whenever any
of the required variables DATABASE_URL, PAYTRAIL_MERCHANT_ID,
PAYTRAIL_SECRET_KEY, PAYTRAIL_CALLBACK_URL, PAYTRAIL_SUCCESS_URL,
PAYTRAIL_CANCEL_URL, KONG_INTERNAL_AUTH or JWT_SECRET is unset or empty. -/
theorem load_missing_required_fails (env : Env) (key : String)
    (hkey : key ∈ requiredVars) (hempty : osGetenv env key = "") :
    (Load env).toOption = none := by
  cases hload : Load env with
  | error e => rfl
  | ok cfg => exact absurd hempty (load_ok_vars env cfg hload key hkey)

/-- Evaluation of `load_missing_required_fails` on the empty environment,
where DATABASE_URL is unset. -/
theorem load_missing_required_fails_witness :
    "DATABASE_URL" ∈ requiredVars
    ∧ osGetenv ([] : Env) "DATABASE_URL" = ""
    ∧ (Load ([] : Env)).toOption = none :=
  ⟨by decide, by decide,
   load_missing_required_fails ([] : Env) "DATABASE_URL" (by decide) (by decide)⟩

theorem validate_none_props (c : Config) (h : validate c = none) :
    (c.environment = "development" ∨ c.environment = "staging" ∨
      c.environment = "production")
    ∧ second ≤ c.timeout
    ∧ 1 ≤ c.maxConnections
    ∧ (c.environment = "production" →
        c.debugMode = false ∧ c.jwt.accessTokenExpiry ≤ hour) := by
  unfold validate at h
  split at h
  · exact Option.noConfusion h
  · split at h
    · exact Option.noConfusion h
    · split at h
      · exact Option.noConfusion h
      · split at h
        · exact Option.noConfusion h
        · split at h
          · exact Option.noConfusion h
          · rename_i h1 h2 h3 h4 h5
            refine ⟨not_not.mp h1, not_lt.mp h4, not_lt.mp h5, fun hprod => ⟨?_, ?_⟩⟩
            · cases hdm : c.debugMode
              · rfl
              · exact absurd ⟨hprod, hdm⟩ h2
            · exact not_lt.mp fun hgt => h3 ⟨hprod, hgt⟩

theorem validate_of_load_ok (env : Env) (cfg : Config)
    (h : Load env = Except.ok cfg) : validate cfg = none := by
  simp only [Load] at h
  split at h
  · exact Except.noConfusion h
  · split at h
    · exact Except.noConfusion h
    · split at h
      · exact Except.noConfusion h
      · split at h
        · exact Except.noConfusion h
        · split at h
          · exact Except.noConfusion h
          · rename_i hv
            injection h with hcfg
            rw [← hcfg]
            exact hv

/-- Claim C8: every configuration `Load` returns without error has an
environment among development/staging/production, a timeout of at least
one second, at least one allowed connection, and, in production, debug
mode off and an access-token expiry of at most one hour. -/
theorem load_config_validated (env : Env) (cfg : Config)
    (h : Load env = Except.ok cfg) :
    (cfg.environment = "development" ∨ cfg.environment = "staging" ∨
      cfg.environment = "production")
    ∧ second ≤ cfg.timeout
    ∧ 1 ≤ cfg.maxConnections
    ∧ (cfg.environment = "production" →
        cfg.debugMode = false ∧ cfg.jwt.accessTokenExpiry ≤ hour) :=
  validate_none_props cfg (validate_of_load_ok env cfg h)

/-- Evaluation of `load_config_validated` on `sampleEnv`, which `Load`
accepts, producing `sampleConfig`. -/
theorem load_config_validated_witness :
    Load sampleEnv = Except.ok sampleConfig ∧
    ((sampleConfig.environment = "development" ∨ sampleConfig.environment = "staging" ∨
      sampleConfig.environment = "production")
    ∧ second ≤ sampleConfig.timeout
    ∧ 1 ≤ sampleConfig.maxConnections
    ∧ (sampleConfig.environment = "production" →
        sampleConfig.debugMode = false ∧ sampleConfig.jwt.accessTokenExpiry ≤ hour)) :=
  ⟨by rfl, load_config_validated sampleEnv sampleConfig (by rfl)⟩

/-- Claim C10: the environment parsers `getEnvAsBool`, `getEnvAsInt` and
`getEnvAsDuration` are total — an unset, empty or unparseable variable
yields the supplied default, any other value the parsed result. -/
theorem env_parsers_total (env : Env) (key : String)
    (boolDefault : Bool) (intDefault durDefault : Int) :
    getEnvAsBool env key boolDefault =
      (match parseBool (osGetenv env key) with
       | none => boolDefault
       | some b => b)
    ∧ getEnvAsInt env key intDefault =
      (match atoi (osGetenv env key) with
       | none => intDefault
       | some n => n)
    ∧ getEnvAsDuration env key durDefault =
      (match parseDuration (osGetenv env key) with
       | none => durDefault
       | some d => d) := by
  refine ⟨?_, ?_, ?_⟩ <;>
  · simp only [getEnvAsBool, getEnvAsInt, getEnvAsDuration, getEnv_default_empty]
    split
    · rename_i hempty
      rw [hempty]
      rfl
    · rfl

end Config

/-! ## Claims about the route table and the logging surface -/

/-- Claim C6 counterexample: the route table registered by `setupRoutes`
contains no `POST /orders/{id}/pay` route, neither bare nor under the
`/api/v1` prefix — the claimed payment-initiation path does not exist. -/
theorem orders_pay_route_absent :
    ¬ ∃ r ∈ Routes.setupRoutes, r.method = "POST" ∧
      (r.path = "/api/v1/orders/{id}/pay" ∨ r.path = "/orders/{id}/pay") := by
  decide

/-- Claim C6 (amended): the inbound HTTP interface exposes payment
initiation at `POST /api/v1/payments`, mapped to the payment handler's
`CreatePayment`; no registered route uses an `/orders/{id}/pay` path. -/
theorem payment_initiation_route :
    (⟨"POST", "/api/v1/payments", Routes.Handler.paymentCreatePayment⟩ : Routes.Route)
      ∈ Routes.setupRoutes
    ∧ ∀ r ∈ Routes.setupRoutes,
        r.path ≠ "/api/v1/orders/{id}/pay" ∧ r.path ≠ "/orders/{id}/pay" := by
  decide

/-- Claim C7 counterexample: `pkg/logger` exports package-level logging
functions — the file's own "Global functions for convenience" — so not
every logging path goes through an injected `Logger` instance. -/
theorem logger_global_functions_exist :
    ∃ e ∈ LoggerSurface.loggerExports,
      e.kind = LoggerSurface.ExportKind.packageLevel := by
  decide

/-- Claim C7 (amended): `main` does pass the constructed logger into every
handler at construction, but `pkg/logger` additionally exports the
package-level functions Info, Error and Debug, callable without any
injected instance. -/
theorem logger_injected_but_globals_exported :
    (∀ h ∈ LoggerSurface.mainHandlerConstructions, h.loggerInjected = true)
    ∧ ∃ e ∈ LoggerSurface.loggerExports,
        e.kind = LoggerSurface.ExportKind.packageLevel := by
  decide

end Shockbliss
